import Mathlib

/-!
# Verification of the MTG RAG pipeline (`rag_retrieval.py`)

Shallow embedding of the retrieval-augmented answering pipeline implemented by
`MTGRAGPipeline` in `rag_retrieval.py`, together with proofs about its
search-and-filter logic, context formatting, answer generation and batch
orchestration.

Modelling conventions:
* The two external collaborators (the vector-search service reached through the
  Weaviate client, and the chat-completions service reached through the OpenAI
  client) are narrow interfaces carried by a `Pipeline` record, mirroring the
  `self.client` / `self.openai_client` handles set up in `__init__`.  A call
  that may raise is a function into `Except String _`; the error payload is the
  text of the raised exception.
* Relevance scores and temperatures (Python floats) are modelled as rationals.
  Concrete values are written with `mkRat` so that proofs can evaluate them.
* `datetime.now().isoformat()` is modelled by passing the timestamp string
  explicitly into the functions that consult the clock.
* Python dictionaries with a fixed key set become structures; the
  heterogeneous result dictionaries of `answer_question` (which sometimes
  carry `timestamp` / `sources_found` / `debug` / `error` keys) become a
  structure with `Option` fields, `none` meaning the key is absent.
* `obj.properties` (a string-keyed mapping produced by Weaviate) is an
  association list; `properties.get(k, d)` is `(List.lookup k _).getD d`.
-/

namespace MTGRAG

/-- The `limits` dictionary of `search_all_collections`: one integer result
limit per collection (`rag_retrieval.py:36`, `rag_retrieval.py:50-51`). -/
structure Limits where
  rules : Nat
  cards : Nat
  rulings : Nat
  deriving DecidableEq

/-- The similarity metadata returned with each search hit
(`return_metadata=["score", "distance"]`, `rag_retrieval.py:73`). -/
structure WMetadata where
  score : ℚ
  distance : Option ℚ
  deriving DecidableEq

/-- One object returned by a Weaviate `near_text` query: a mapping of named
properties plus similarity metadata (`obj.properties`, `obj.metadata`). -/
structure WObject where
  properties : List (String × String)
  metadata : WMetadata
  deriving DecidableEq

/-- The `search_metadata` entry of the results dictionary built at
`rag_retrieval.py:57-62`. -/
structure SearchMetadata where
  query : String
  timestamp : String
  limits : Limits
  min_score : ℚ
  deriving DecidableEq

/-- The dictionary returned by `search_all_collections`
(`rag_retrieval.py:53-63`): per-collection retained results plus metadata. -/
structure SearchResults where
  rules : List WObject
  cards : List WObject
  rulings : List WObject
  search_metadata : SearchMetadata
  deriving DecidableEq

/-- One chat message of the OpenAI request (`rag_retrieval.py:250-251`). -/
structure ChatMessage where
  role : String
  content : String
  deriving DecidableEq

/-- The request submitted to the chat-completions collaborator
(`rag_retrieval.py:247-255`). -/
structure ChatRequest where
  model : String
  messages : List ChatMessage
  temperature : ℚ
  max_tokens : Nat
  deriving DecidableEq

/-- The pipeline object: the search collaborator (`self.client`, exposed here
as one fallible call per collection name, query and limit, collapsing
`collections.get` plus `query.near_text` of `rag_retrieval.py:69-74`), the
generation collaborator (`self.openai_client.chat.completions.create`,
returning the answer text `response.choices[0].message.content`), and
`self.model`. -/
structure Pipeline where
  search : String → String → Nat → Except String (List WObject)
  chat : ChatRequest → Except String String
  model : String

/-- `self.collections` (`rag_retrieval.py:27-31`): collection identifier to
Weaviate collection name. -/
def collections (key : String) : String :=
  if key = "rules" then "MTGOfficialRules"
  else if key = "cards" then "MTGCards"
  else "MTGRulings"

/-- `sources_found` of the `answer_question` result (`rag_retrieval.py:300-304`). -/
structure SourcesFound where
  rules : Nat
  cards : Nat
  rulings : Nat
  deriving DecidableEq

/-- `search_params` of the debug payload (`rag_retrieval.py:311-315`). -/
structure SearchParams where
  limits : Option Limits
  min_score : ℚ
  temperature : ℚ
  deriving DecidableEq

/-- The `debug` payload attached when `include_debug` is set
(`rag_retrieval.py:307-316`). -/
structure DebugInfo where
  search_results : SearchResults
  formatted_context : String
  search_params : SearchParams
  deriving DecidableEq

/-- The dictionary returned for one question.  `answer_question` fills
`question`, `answer`, `timestamp`, `sources_found` (and optionally `debug`);
the error records built by `batch_answer_questions` (`rag_retrieval.py:345-349`)
carry only `question`, `answer` and `error: True`.  An `Option` field is `none`
when the corresponding key is absent from the Python dictionary. -/
structure AnswerRecord where
  question : String
  answer : String
  timestamp : Option String
  sources_found : Option SourcesFound
  debug : Option DebugInfo
  error : Option Bool
  deriving DecidableEq

/-! ## Decimal rendering

`format_context_for_llm` interpolates the loop index with `f"{i}. ..."` and the
score with `f"{score:.3f}"`.  `natReprCore` renders a natural number in
decimal (fuel-based structural recursion so that proofs can evaluate it; the
fuel `n + 1` always suffices since `n / 10 < n` for `n ≥ 10`).  `fmtScore`
renders a rational with exactly three digits after the decimal point, rounding
at the third decimal as `%.3f` does: `scoreMillis q` is the integer nearest to
`1000 * q` (floor of `1000 * q + 1/2`, computed on numerator and denominator). -/

/-- Decimal digits of `n` prepended to `acc` (structural fuel recursion). -/
def natReprCore : Nat → Nat → List Char → List Char
  | 0, _, acc => acc
  | fuel + 1, n, acc =>
    if n < 10 then Nat.digitChar n :: acc
    else natReprCore fuel (n / 10) (Nat.digitChar (n % 10) :: acc)

/-- Decimal rendering of a natural number, as Python `str(i)`. -/
def natRepr (n : Nat) : String := ⟨natReprCore (n + 1) n []⟩

/-- `⌊1000 * q + 1/2⌋`, computed as a floor division on the numerator and
denominator of `q` (`Int.fdiv` is floor division; `q.den > 0`). -/
def scoreMillis (q : ℚ) : Int := Int.fdiv (2000 * q.num + (q.den : Int)) (2 * (q.den : Int))

/-- Left-pad to three digits: the fractional part of `%.3f`. -/
def pad3 (k : Nat) : String :=
  if k < 10 then "00" ++ natRepr k
  else if k < 100 then "0" ++ natRepr k
  else natRepr k

/-- Model of the Python format specifier `{score:.3f}`. -/
def fmtScore (score : ℚ) : String :=
  let n := scoreMillis score
  let m := n.natAbs
  (if n < 0 then "-" else "") ++ natRepr (m / 1000) ++ "." ++ pad3 (m % 1000)

/-! ## Multi-collection search (`search_all_collections`, `rag_retrieval.py:33-133`) -/

/-- `search_all_collections` (`rag_retrieval.py:33-133`).  For each collection
a `near_text` query is issued with the per-collection limit; the response is
filtered by `obj.metadata.score >= min_score`; an exception from the
collaborator (modelled by `Except.error`) is caught locally and yields `[]`
for that collection only.  `limits0 = none` models `limits=None`, defaulted at
`rag_retrieval.py:50-51`; `now` models `datetime.now().isoformat()`. -/
def search_all_collections (p : Pipeline) (query_text : String)
    (limits0 : Option Limits) (min_score : ℚ) (now : String) : SearchResults :=
  let limits := limits0.getD ⟨3, 3, 3⟩
  let rules_results :=
    match p.search (collections "rules") query_text limits.rules with
    | Except.ok resp => resp.filter fun obj => decide (min_score ≤ obj.metadata.score)
    | Except.error _ => []
  let cards_results :=
    match p.search (collections "cards") query_text limits.cards with
    | Except.ok resp => resp.filter fun obj => decide (min_score ≤ obj.metadata.score)
    | Except.error _ => []
  let rulings_results :=
    match p.search (collections "rulings") query_text limits.rulings with
    | Except.ok resp => resp.filter fun obj => decide (min_score ≤ obj.metadata.score)
    | Except.error _ => []
  { rules := rules_results
    cards := cards_results
    rulings := rulings_results
    search_metadata :=
      { query := query_text, timestamp := now, limits := limits, min_score := min_score } }

/-! ## Context formatting (`format_context_for_llm`, `rag_retrieval.py:135-207`) -/

/-- One line of the `OFFICIAL RULES` section (`rag_retrieval.py:156-159`).
The metadata always carries a score in this model, so the `getattr(_, 'score', 0)`
fallback never fires. -/
def ruleEntry (i : Nat) (obj : WObject) : String :=
  let rule_text := (obj.properties.lookup "rule").getD ""
  let score := obj.metadata.score
  natRepr i ++ ". [Score: " ++ fmtScore score ++ "] " ++ rule_text

/-- One entry of the `RELEVANT CARDS` section (`rag_retrieval.py:165-184`).
Python string truthiness (`if manacost:` etc.) is emptiness of the looked-up
string, since every `.get` fallback here is `""`. -/
def cardEntry (i : Nat) (obj : WObject) : String :=
  let name := (obj.properties.lookup "name").getD "Unknown Card"
  let text := (obj.properties.lookup "text").getD ""
  let card_type := (obj.properties.lookup "type").getD ""
  let manacost := (obj.properties.lookup "manacost").getD ""
  let power := (obj.properties.lookup "power").getD ""
  let toughness := (obj.properties.lookup "toughness").getD ""
  let score := obj.metadata.score
  let card_info := natRepr i ++ ". [Score: " ++ fmtScore score ++ "] " ++ name
  let card_info := if manacost ≠ "" then card_info ++ " " ++ manacost else card_info
  let card_info := if card_type ≠ "" then card_info ++ " - " ++ card_type else card_info
  let card_info :=
    if power ≠ "" ∧ toughness ≠ "" then card_info ++ " (" ++ power ++ "/" ++ toughness ++ ")"
    else card_info
  let card_info := if text ≠ "" then card_info ++ "\n   Text: " ++ text else card_info
  card_info

/-- One entry of the `OFFICIAL RULINGS` section (`rag_retrieval.py:190-204`). -/
def rulingEntry (i : Nat) (obj : WObject) : String :=
  let name := (obj.properties.lookup "name").getD "Unknown Card"
  let ruling := (obj.properties.lookup "rulings").getD ""
  let ruling_date := (obj.properties.lookup "ruling_date").getD ""
  let source := (obj.properties.lookup "source").getD ""
  let score := obj.metadata.score
  let ruling_info := natRepr i ++ ". [Score: " ++ fmtScore score ++ "] " ++ name
  let ruling_info := if ruling_date ≠ "" then ruling_info ++ " (" ++ ruling_date ++ ")" else ruling_info
  let ruling_info := if source ≠ "" then ruling_info ++ " - Source: " ++ source else ruling_info
  ruling_info ++ "\n   Ruling: " ++ ruling

/-- The `context_parts` list accumulated by `format_context_for_llm`
(`rag_retrieval.py:145-205`), in append order: the metadata header, then one
section per non-empty collection (Python list truthiness), each section being
its header line, its 1-indexed entries (`enumerate(_, 1)`), and a trailing
blank part.  The `search_metadata` key is always present in this model, so the
`.get(..., 'Unknown')` fallbacks of lines 148-150 never fire. -/
def contextParts (search_results : SearchResults) : List String :=
  (["SEARCH QUERY: " ++ search_results.search_metadata.query,
    "SEARCH TIMESTAMP: " ++ search_results.search_metadata.timestamp,
    ""])
  ++ (if search_results.rules.isEmpty then []
      else "=== OFFICIAL RULES ===" ::
        (((search_results.rules.enumFrom 1).map fun p => ruleEntry p.1 p.2) ++ [""]))
  ++ (if search_results.cards.isEmpty then []
      else "=== RELEVANT CARDS ===" ::
        (((search_results.cards.enumFrom 1).map fun p => cardEntry p.1 p.2) ++ [""]))
  ++ (if search_results.rulings.isEmpty then []
      else "=== OFFICIAL RULINGS ===" ::
        (((search_results.rulings.enumFrom 1).map fun p => rulingEntry p.1 p.2) ++ [""]))

/-- `format_context_for_llm` (`rag_retrieval.py:135-207`):
`"\n".join(context_parts)`. -/
def format_context_for_llm (search_results : SearchResults) : String :=
  String.intercalate "\n" (contextParts search_results)

/-! ## Answer generation (`generate_answer`, `rag_retrieval.py:209-261`) -/

/-- The fixed system instruction (`rag_retrieval.py:221-235`). -/
def system_prompt : String :=
  "You are an expert Magic: The Gathering judge with comprehensive knowledge of the game rules, cards, and official rulings. \n\nYour responsibilities:\n1. Provide accurate, rule-based answers using the official context provided\n2. Cite specific rules, cards, or rulings when relevant\n3. Explain complex interactions clearly and step-by-step\n4. If the provided context doesn\x27t fully answer the question, clearly state what information is missing\n5. Always prioritize official rules over card text when there are conflicts\n6. Use proper MTG terminology\n\nAnswer format guidelines:\n- Start with a direct answer to the question\n- Provide detailed explanation with rule citations\n- Include relevant card interactions if applicable\n- End with any important caveats or edge cases"

/-- The user instruction embedding the question and the context verbatim
(`rag_retrieval.py:237-244`). -/
def user_prompt (question context : String) : String :=
  "Based on the following official Magic: The Gathering information, please answer this question:\n\nQUESTION: " ++
    question ++ "\n\nOFFICIAL CONTEXT:\n" ++ context ++
    "\n\nPlease provide a comprehensive answer using the official information provided above."

/-- The request submitted to the generation collaborator
(`rag_retrieval.py:247-255`): the configured model, the system and user
messages, the caller-supplied temperature, and the fixed `max_tokens=1000`. -/
def chat_request (model question context : String) (temperature : ℚ) : ChatRequest :=
  { model := model
    messages := [⟨"system", system_prompt⟩, ⟨"user", user_prompt question context⟩]
    temperature := temperature
    max_tokens := 1000 }

/-- `generate_answer` (`rag_retrieval.py:209-261`): submit the request; on a
collaborator exception return the error text embedding the exception message
(`rag_retrieval.py:259-261`) instead of raising. -/
def generate_answer (p : Pipeline) (question context : String) (temperature : ℚ) : String :=
  match p.chat (chat_request p.model question context temperature) with
  | Except.ok content => content
  | Except.error e => "I encountered an error while generating the answer: " ++ e

/-! ## Orchestration (`answer_question`, `batch_answer_questions`) -/

/-- `answer_question` (`rag_retrieval.py:263-319`): search all collections,
format the context, generate the answer, assemble the record (with the debug
payload exactly when `include_debug` is set).  `search_now` and `answer_now`
model the two `datetime.now().isoformat()` calls (lines 59 and 299). -/
def answer_question (p : Pipeline) (question : String) (limits : Option Limits)
    (min_score : ℚ) (temperature : ℚ) (include_debug : Bool)
    (search_now answer_now : String) : AnswerRecord :=
  let search_results := search_all_collections p question limits min_score search_now
  let context := format_context_for_llm search_results
  let answer := generate_answer p question context temperature
  { question := question
    answer := answer
    timestamp := some answer_now
    sources_found := some
      ⟨search_results.rules.length, search_results.cards.length, search_results.rulings.length⟩
    debug :=
      if include_debug then some ⟨search_results, context, ⟨limits, min_score, temperature⟩⟩
      else none
    error := none }

/-- `batch_answer_questions` (`rag_retrieval.py:321-351`): apply the answering
function to each question; a question whose processing raises (the
`try/except` of lines 340-349) yields an error record — `question`, an error
string as `answer`, and `error: True` — without aborting the siblings.
`answer_question_fn` stands for the bound method `self.answer_question`
(with the shared keyword arguments already applied); it is `Except`-valued so
that an unexpected exception from one question can be expressed. -/
def batch_answer_questions (answer_question_fn : String → Except String AnswerRecord)
    (questions : List String) : List AnswerRecord :=
  questions.map fun question =>
    match answer_question_fn question with
    | Except.ok result => result
    | Except.error e =>
      { question := question
        answer := "Error processing question: " ++ e
        timestamp := none
        sources_found := none
        debug := none
        error := some true }

/-! ## Signature defaults -/

/-- The default minimum score of `search_all_collections` and
`answer_question` (`min_score: float = 0.7`, `rag_retrieval.py:37,267`). -/
def default_min_score : ℚ := mkRat 7 10

/-- The default temperature of `generate_answer` and `answer_question`
(`temperature: float = 0.1`, `rag_retrieval.py:209,268`). -/
def default_temperature : ℚ := mkRat 1 10

/-- The default per-collection limits substituted for `limits=None`
(`rag_retrieval.py:50-51`). -/
def default_limits : Limits := ⟨3, 3, 3⟩

/-- Substring occurrence: `pat` occurs contiguously inside `s`. -/
def strContains (s pat : String) : Prop := pat.data <:+: s.data

instance instDecidableStrContains (s pat : String) : Decidable (strContains s pat) :=
  List.decidableInfix pat.data s.data

/-! ## Helper lemmas -/

/-- A string whose first character is a decimal digit. -/
def headIsDigit (s : String) : Prop := ∃ c cs, s.data = c :: cs ∧ c.isDigit = true

lemma digitChar_isDigit {n : Nat} (h : n < 10) : (Nat.digitChar n).isDigit = true := by
  interval_cases n <;> decide

lemma natReprCore_head :
    ∀ (fuel n : Nat) (acc : List Char), n < fuel →
      ∃ c cs, natReprCore fuel n acc = c :: cs ∧ c.isDigit = true := by
  intro fuel
  induction fuel with
  | zero => intro n acc h; omega
  | succ fuel ih =>
    intro n acc h
    rw [natReprCore]
    split
    · next hlt => exact ⟨_, _, rfl, digitChar_isDigit hlt⟩
    · next hge =>
      have hdiv : n / 10 < fuel := by
        have hlt : n / 10 < n := Nat.div_lt_self (by omega) (by omega)
        omega
      exact ih (n / 10) _ hdiv

lemma natReprCore_digits :
    ∀ (fuel n : Nat) (acc : List Char), (∀ c ∈ acc, c.isDigit = true) →
      ∀ c ∈ natReprCore fuel n acc, c.isDigit = true := by
  intro fuel
  induction fuel with
  | zero => intro n acc hacc c hc; exact hacc c hc
  | succ fuel ih =>
    intro n acc hacc c hc
    rw [natReprCore] at hc
    split at hc
    · next hlt =>
      rcases List.mem_cons.mp hc with h1 | h1
      · exact h1 ▸ digitChar_isDigit hlt
      · exact hacc c h1
    · next hge =>
      refine ih (n / 10) _ ?_ c hc
      intro d hd
      rcases List.mem_cons.mp hd with h1 | h1
      · exact h1 ▸ digitChar_isDigit (Nat.mod_lt n (by omega))
      · exact hacc d h1

lemma headIsDigit_natRepr (n : Nat) : headIsDigit (natRepr n) := by
  obtain ⟨c, cs, h, hd⟩ := natReprCore_head (n + 1) n [] (by omega)
  exact ⟨c, cs, h, hd⟩

lemma natRepr_digits (n : Nat) : ∀ c ∈ (natRepr n).data, c.isDigit = true :=
  natReprCore_digits (n + 1) n [] (by simp)

lemma headIsDigit_append (s t : String) (h : headIsDigit s) : headIsDigit (s ++ t) := by
  obtain ⟨c, cs, hd, hdig⟩ := h
  refine ⟨c, cs ++ t.data, ?_, hdig⟩
  rw [String.data_append, hd]
  rfl

lemma headIsDigit_false {s : String} (hs : headIsDigit s) (hh : s.data.head? = some '=') :
    False := by
  obtain ⟨c, cs, hd, hdig⟩ := hs
  rw [hd] at hh
  simp at hh
  rw [hh] at hdig
  exact absurd hdig (by decide)

lemma headIsDigit_ne {s t : String} (hs : headIsDigit s) (ht : t.data.head? = some '=') :
    s ≠ t := by
  obtain ⟨c, cs, hd, hdig⟩ := hs
  intro he
  rw [he] at hd
  rw [hd] at ht
  simp at ht
  rw [ht] at hdig
  exact absurd hdig (by decide)

lemma append_ne_of_head_ne {pre q t : String} {c1 c2 : Char}
    (hpre : pre.data.head? = some c1) (ht : t.data.head? = some c2) (hne : c1 ≠ c2) :
    pre ++ q ≠ t := by
  intro he
  apply hne
  have hd := String.data_append pre q
  rw [he] at hd
  rcases hp : pre.data with _ | ⟨a, as⟩
  · rw [hp] at hpre; simp at hpre
  · rw [hp] at hpre hd
    simp only [List.head?] at hpre
    rw [hd] at ht
    simp only [List.cons_append, List.head?] at ht
    exact Option.some.inj hpre ▸ Option.some.inj ht

lemma natRepr_data_len1 {n : Nat} (h : n < 10) : (natRepr n).data.length = 1 := by
  simp [natRepr, natReprCore, h]

lemma natRepr_data_len2 {n : Nat} (h1 : 10 ≤ n) (h2 : n < 100) :
    (natRepr n).data.length = 2 := by
  obtain ⟨m, rfl⟩ : ∃ m, n = m + 10 := ⟨n - 10, by omega⟩
  show (natReprCore (m + 10 + 1) (m + 10) []).length = 2
  rw [natReprCore, if_neg (show ¬ m + 10 < 10 by omega),
    natReprCore, if_pos (show (m + 10) / 10 < 10 by omega)]
  rfl

lemma natRepr_data_len3 {n : Nat} (h1 : 100 ≤ n) (h2 : n < 1000) :
    (natRepr n).data.length = 3 := by
  obtain ⟨m, rfl⟩ : ∃ m, n = m + 100 := ⟨n - 100, by omega⟩
  show (natReprCore (m + 100 + 1) (m + 100) []).length = 3
  rw [natReprCore, if_neg (show ¬ m + 100 < 10 by omega),
    natReprCore, if_neg (show ¬ (m + 100) / 10 < 10 by omega),
    natReprCore, if_pos (show (m + 100) / 10 / 10 < 10 by omega)]
  rfl

lemma pad3_data_len {k : Nat} (h : k < 1000) : (pad3 k).data.length = 3 := by
  unfold pad3
  split
  · next h1 =>
    rw [String.data_append]
    rw [List.length_append, natRepr_data_len1 h1]
    rfl
  · next h1 =>
    split
    · next h2 =>
      rw [String.data_append]
      rw [List.length_append, natRepr_data_len2 (by omega) h2]
      rfl
    · next h2 =>
      exact natRepr_data_len3 (by omega) h

lemma pad3_digits {k : Nat} : ∀ c ∈ (pad3 k).data, c.isDigit = true := by
  unfold pad3
  intro c hc
  have hz : ∀ c ∈ ("00" : String).data, c.isDigit = true := by decide
  have hz1 : ∀ c ∈ ("0" : String).data, c.isDigit = true := by decide
  split at hc
  · rw [String.data_append] at hc
    rcases List.mem_append.mp hc with h | h
    · exact hz c h
    · exact natRepr_digits _ c h
  · split at hc
    · rw [String.data_append] at hc
      rcases List.mem_append.mp hc with h | h
      · exact hz1 c h
      · exact natRepr_digits _ c h
    · exact natRepr_digits _ c hc

lemma headIsDigit_ruleEntry (i : Nat) (obj : WObject) : headIsDigit (ruleEntry i obj) := by
  unfold ruleEntry
  repeat apply headIsDigit_append
  exact headIsDigit_natRepr i

lemma headIsDigit_cardEntry (i : Nat) (obj : WObject) : headIsDigit (cardEntry i obj) := by
  simp only [cardEntry]
  split_ifs <;> (repeat apply headIsDigit_append) <;> exact headIsDigit_natRepr i

lemma headIsDigit_rulingEntry (i : Nat) (obj : WObject) : headIsDigit (rulingEntry i obj) := by
  simp only [rulingEntry]
  split_ifs <;> (repeat apply headIsDigit_append) <;> exact headIsDigit_natRepr i

lemma mem_section {s hdr : String} {l : List WObject} {f : Nat → WObject → String}
    (hf : ∀ i obj, headIsDigit (f i obj))
    (h : s ∈ if l.isEmpty then ([] : List String)
        else hdr :: (((l.enumFrom 1).map fun p => f p.1 p.2) ++ [""])) :
    (l ≠ [] ∧ s = hdr) ∨ s = "" ∨ headIsDigit s := by
  split at h
  · simp at h
  · next hne =>
    have hl : l ≠ [] := by
      intro h0
      rw [h0] at hne
      simp at hne
    rcases List.mem_cons.mp h with h1 | h1
    · exact Or.inl ⟨hl, h1⟩
    · rcases List.mem_append.mp h1 with h2 | h2
      · obtain ⟨p, _, hp⟩ := List.mem_map.mp h2
        exact Or.inr (Or.inr (hp ▸ hf p.1 p.2))
      · rcases List.mem_singleton.mp h2 with rfl
        exact Or.inr (Or.inl rfl)

lemma mem_contextParts {s : String} {sr : SearchResults} (h : s ∈ contextParts sr) :
    s = "SEARCH QUERY: " ++ sr.search_metadata.query ∨
    s = "SEARCH TIMESTAMP: " ++ sr.search_metadata.timestamp ∨
    s = "" ∨
    (sr.rules ≠ [] ∧ s = "=== OFFICIAL RULES ===") ∨
    (sr.cards ≠ [] ∧ s = "=== RELEVANT CARDS ===") ∨
    (sr.rulings ≠ [] ∧ s = "=== OFFICIAL RULINGS ===") ∨
    headIsDigit s := by
  unfold contextParts at h
  rcases List.mem_append.mp h with h1 | h1
  · rcases List.mem_append.mp h1 with h2 | h2
    · rcases List.mem_append.mp h2 with h3 | h3
      · simp only [List.mem_cons, List.mem_singleton] at h3
        rcases h3 with h4 | h4 | h4 | h4
        · exact Or.inl h4
        · exact Or.inr (Or.inl h4)
        · exact Or.inr (Or.inr (Or.inl h4))
        · simp at h4
      · rcases mem_section headIsDigit_ruleEntry h3 with h4 | h4 | h4
        · exact Or.inr (Or.inr (Or.inr (Or.inl h4)))
        · exact Or.inr (Or.inr (Or.inl h4))
        · exact Or.inr (Or.inr (Or.inr (Or.inr (Or.inr (Or.inr h4)))))
    · rcases mem_section headIsDigit_cardEntry h2 with h4 | h4 | h4
      · exact Or.inr (Or.inr (Or.inr (Or.inr (Or.inl h4))))
      · exact Or.inr (Or.inr (Or.inl h4))
      · exact Or.inr (Or.inr (Or.inr (Or.inr (Or.inr (Or.inr h4)))))
  · rcases mem_section headIsDigit_rulingEntry h1 with h4 | h4 | h4
    · exact Or.inr (Or.inr (Or.inr (Or.inr (Or.inr (Or.inl h4)))))
    · exact Or.inr (Or.inr (Or.inl h4))
    · exact Or.inr (Or.inr (Or.inr (Or.inr (Or.inr (Or.inr h4)))))

lemma branch_len (res : Except String (List WObject)) (T : ℚ) {lim : Nat}
    (hb : ∀ resp, res = Except.ok resp → resp.length ≤ lim) :
    (match res with
      | Except.ok resp => resp.filter fun (obj : WObject) => decide (T ≤ obj.metadata.score)
      | Except.error _ => ([] : List WObject)).length ≤ lim := by
  cases res with
  | ok resp => exact le_trans (List.length_filter_le _ _) (hb resp rfl)
  | error e => exact Nat.zero_le lim

lemma branch_score (res : Except String (List WObject)) (T : ℚ) :
    ∀ o : WObject, o ∈ (match res with
      | Except.ok resp => resp.filter fun (obj : WObject) => decide (T ≤ obj.metadata.score)
      | Except.error _ => ([] : List WObject)) → T ≤ o.metadata.score := by
  cases res with
  | ok resp =>
    intro o ho
    exact of_decide_eq_true (List.mem_filter.mp ho).2
  | error e => intro o ho; exact absurd ho (List.not_mem_nil o)

/-! ## Claim theorems -/

/-- C1: for every query, limits mapping `L` and threshold `T`, and for each
collection independently, if the search collaborator returns at most the
requested number of candidates, then the list retained by
`search_all_collections` for that collection has length at most the
per-collection limit, and every retained entry has score at least `T`. -/
theorem claim_C1 (p : Pipeline) (query_text : String) (L : Limits) (T : ℚ) (now : String)
    (hbound : ∀ name lim resp, p.search name query_text lim = Except.ok resp →
      resp.length ≤ lim) :
    ((search_all_collections p query_text (some L) T now).rules.length ≤ L.rules ∧
      ∀ o ∈ (search_all_collections p query_text (some L) T now).rules,
        T ≤ o.metadata.score) ∧
    ((search_all_collections p query_text (some L) T now).cards.length ≤ L.cards ∧
      ∀ o ∈ (search_all_collections p query_text (some L) T now).cards,
        T ≤ o.metadata.score) ∧
    ((search_all_collections p query_text (some L) T now).rulings.length ≤ L.rulings ∧
      ∀ o ∈ (search_all_collections p query_text (some L) T now).rulings,
        T ≤ o.metadata.score) :=
  ⟨⟨branch_len _ T fun resp h => hbound _ _ resp h, branch_score _ T⟩,
    ⟨branch_len _ T fun resp h => hbound _ _ resp h, branch_score _ T⟩,
    ⟨branch_len _ T fun resp h => hbound _ _ resp h, branch_score _ T⟩⟩

/-- C1 witness: a collaborator that returns at most `lim` candidates (a
truncated two-element base list); the theorem applies with all hypotheses
discharged at this concrete input. -/
theorem claim_C1_witness :
    ((search_all_collections
        ⟨fun _ _ lim => Except.ok (List.take lim
            [⟨[("rule", "r1")], ⟨mkRat 9 10, none⟩⟩, ⟨[("rule", "r2")], ⟨mkRat 1 2, none⟩⟩]),
          fun _ => Except.ok "a", "gpt-4"⟩
        "q" (some ⟨2, 2, 2⟩) (mkRat 7 10) "t").rules.length ≤ 2 ∧
      ∀ o ∈ (search_all_collections
        ⟨fun _ _ lim => Except.ok (List.take lim
            [⟨[("rule", "r1")], ⟨mkRat 9 10, none⟩⟩, ⟨[("rule", "r2")], ⟨mkRat 1 2, none⟩⟩]),
          fun _ => Except.ok "a", "gpt-4"⟩
        "q" (some ⟨2, 2, 2⟩) (mkRat 7 10) "t").rules, mkRat 7 10 ≤ o.metadata.score) ∧
    ((search_all_collections
        ⟨fun _ _ lim => Except.ok (List.take lim
            [⟨[("rule", "r1")], ⟨mkRat 9 10, none⟩⟩, ⟨[("rule", "r2")], ⟨mkRat 1 2, none⟩⟩]),
          fun _ => Except.ok "a", "gpt-4"⟩
        "q" (some ⟨2, 2, 2⟩) (mkRat 7 10) "t").cards.length ≤ 2 ∧
      ∀ o ∈ (search_all_collections
        ⟨fun _ _ lim => Except.ok (List.take lim
            [⟨[("rule", "r1")], ⟨mkRat 9 10, none⟩⟩, ⟨[("rule", "r2")], ⟨mkRat 1 2, none⟩⟩]),
          fun _ => Except.ok "a", "gpt-4"⟩
        "q" (some ⟨2, 2, 2⟩) (mkRat 7 10) "t").cards, mkRat 7 10 ≤ o.metadata.score) ∧
    ((search_all_collections
        ⟨fun _ _ lim => Except.ok (List.take lim
            [⟨[("rule", "r1")], ⟨mkRat 9 10, none⟩⟩, ⟨[("rule", "r2")], ⟨mkRat 1 2, none⟩⟩]),
          fun _ => Except.ok "a", "gpt-4"⟩
        "q" (some ⟨2, 2, 2⟩) (mkRat 7 10) "t").rulings.length ≤ 2 ∧
      ∀ o ∈ (search_all_collections
        ⟨fun _ _ lim => Except.ok (List.take lim
            [⟨[("rule", "r1")], ⟨mkRat 9 10, none⟩⟩, ⟨[("rule", "r2")], ⟨mkRat 1 2, none⟩⟩]),
          fun _ => Except.ok "a", "gpt-4"⟩
        "q" (some ⟨2, 2, 2⟩) (mkRat 7 10) "t").rulings, mkRat 7 10 ≤ o.metadata.score) :=
  claim_C1 _ "q" ⟨2, 2, 2⟩ (mkRat 7 10) "t"
    (fun name lim resp h => by
      cases h
      simp [List.length_take])

/-- C2: if the search collaborator raises for exactly one collection, then
`search_all_collections` returns `[]` for that collection and the filtered
results of the other two collections unchanged: they equal the filter of what
the collaborator returned for them, and they coincide with the results of the
same invocation against any collaborator that agrees on those two calls — in
particular one for which no collection fails.  The exception cannot
propagate: the function is total and the failing branch is mapped to `[]`
(`rag_retrieval.py:85-87,107-109,129-131`).  One conjunct per choice of the
failing collection. -/
theorem claim_C2 (p : Pipeline) (q : String) (L : Limits) (T : ℚ) (now : String) :
    (∀ e rc rg, p.search (collections "rules") q L.rules = Except.error e →
      p.search (collections "cards") q L.cards = Except.ok rc →
      p.search (collections "rulings") q L.rulings = Except.ok rg →
      (search_all_collections p q (some L) T now).rules = [] ∧
      (search_all_collections p q (some L) T now).cards =
        rc.filter (fun obj => decide (T ≤ obj.metadata.score)) ∧
      (search_all_collections p q (some L) T now).rulings =
        rg.filter (fun obj => decide (T ≤ obj.metadata.score)) ∧
      (∀ p2 : Pipeline,
        p2.search (collections "cards") q L.cards = p.search (collections "cards") q L.cards →
        p2.search (collections "rulings") q L.rulings =
          p.search (collections "rulings") q L.rulings →
        (search_all_collections p q (some L) T now).cards =
          (search_all_collections p2 q (some L) T now).cards ∧
        (search_all_collections p q (some L) T now).rulings =
          (search_all_collections p2 q (some L) T now).rulings)) ∧
    (∀ e rr rg, p.search (collections "rules") q L.rules = Except.ok rr →
      p.search (collections "cards") q L.cards = Except.error e →
      p.search (collections "rulings") q L.rulings = Except.ok rg →
      (search_all_collections p q (some L) T now).rules =
        rr.filter (fun obj => decide (T ≤ obj.metadata.score)) ∧
      (search_all_collections p q (some L) T now).cards = [] ∧
      (search_all_collections p q (some L) T now).rulings =
        rg.filter (fun obj => decide (T ≤ obj.metadata.score)) ∧
      (∀ p2 : Pipeline,
        p2.search (collections "rules") q L.rules = p.search (collections "rules") q L.rules →
        p2.search (collections "rulings") q L.rulings =
          p.search (collections "rulings") q L.rulings →
        (search_all_collections p q (some L) T now).rules =
          (search_all_collections p2 q (some L) T now).rules ∧
        (search_all_collections p q (some L) T now).rulings =
          (search_all_collections p2 q (some L) T now).rulings)) ∧
    (∀ e rr rc, p.search (collections "rules") q L.rules = Except.ok rr →
      p.search (collections "cards") q L.cards = Except.ok rc →
      p.search (collections "rulings") q L.rulings = Except.error e →
      (search_all_collections p q (some L) T now).rules =
        rr.filter (fun obj => decide (T ≤ obj.metadata.score)) ∧
      (search_all_collections p q (some L) T now).cards =
        rc.filter (fun obj => decide (T ≤ obj.metadata.score)) ∧
      (search_all_collections p q (some L) T now).rulings = [] ∧
      (∀ p2 : Pipeline,
        p2.search (collections "rules") q L.rules = p.search (collections "rules") q L.rules →
        p2.search (collections "cards") q L.cards = p.search (collections "cards") q L.cards →
        (search_all_collections p q (some L) T now).rules =
          (search_all_collections p2 q (some L) T now).rules ∧
        (search_all_collections p q (some L) T now).cards =
          (search_all_collections p2 q (some L) T now).cards)) := by
  refine ⟨?_, ?_, ?_⟩ <;>
    · intro e r1 r2 h1 h2 h3
      refine ⟨by simp [search_all_collections, h1, h2, h3],
        by simp [search_all_collections, h1, h2, h3],
        by simp [search_all_collections, h1, h2, h3], ?_⟩
      intro p2 ha hb
      constructor <;> simp [search_all_collections, h1, h2, h3, ha, hb]

/-- C2 witness: a collaborator that fails on the cards collection only; the
second conjunct of the theorem applies with all hypotheses discharged, and
the rules and rulings results coincide with those of an all-succeeding
collaborator that agrees on their calls. -/
theorem claim_C2_witness :
    (search_all_collections
        ⟨fun name _ _ => if name = "MTGCards" then Except.error "timeout"
            else Except.ok [⟨[("rule", "r1")], ⟨mkRat 9 10, none⟩⟩],
          fun _ => Except.ok "a", "gpt-4"⟩
        "q" (some ⟨1, 1, 1⟩) (mkRat 7 10) "t").rules =
      [⟨[("rule", "r1")], ⟨mkRat 9 10, none⟩⟩].filter
        (fun obj => decide (mkRat 7 10 ≤ obj.metadata.score)) ∧
    (search_all_collections
        ⟨fun name _ _ => if name = "MTGCards" then Except.error "timeout"
            else Except.ok [⟨[("rule", "r1")], ⟨mkRat 9 10, none⟩⟩],
          fun _ => Except.ok "a", "gpt-4"⟩
        "q" (some ⟨1, 1, 1⟩) (mkRat 7 10) "t").cards = [] ∧
    (search_all_collections
        ⟨fun name _ _ => if name = "MTGCards" then Except.error "timeout"
            else Except.ok [⟨[("rule", "r1")], ⟨mkRat 9 10, none⟩⟩],
          fun _ => Except.ok "a", "gpt-4"⟩
        "q" (some ⟨1, 1, 1⟩) (mkRat 7 10) "t").rulings =
      [⟨[("rule", "r1")], ⟨mkRat 9 10, none⟩⟩].filter
        (fun obj => decide (mkRat 7 10 ≤ obj.metadata.score)) ∧
    (search_all_collections
        ⟨fun name _ _ => if name = "MTGCards" then Except.error "timeout"
            else Except.ok [⟨[("rule", "r1")], ⟨mkRat 9 10, none⟩⟩],
          fun _ => Except.ok "a", "gpt-4"⟩
        "q" (some ⟨1, 1, 1⟩) (mkRat 7 10) "t").rules =
      (search_all_collections
        ⟨fun _ _ _ => Except.ok [⟨[("rule", "r1")], ⟨mkRat 9 10, none⟩⟩],
          fun _ => Except.ok "a", "gpt-4"⟩
        "q" (some ⟨1, 1, 1⟩) (mkRat 7 10) "t").rules ∧
    (search_all_collections
        ⟨fun name _ _ => if name = "MTGCards" then Except.error "timeout"
            else Except.ok [⟨[("rule", "r1")], ⟨mkRat 9 10, none⟩⟩],
          fun _ => Except.ok "a", "gpt-4"⟩
        "q" (some ⟨1, 1, 1⟩) (mkRat 7 10) "t").rulings =
      (search_all_collections
        ⟨fun _ _ _ => Except.ok [⟨[("rule", "r1")], ⟨mkRat 9 10, none⟩⟩],
          fun _ => Except.ok "a", "gpt-4"⟩
        "q" (some ⟨1, 1, 1⟩) (mkRat 7 10) "t").rulings := by
  have H := (claim_C2
    ⟨fun name _ _ => if name = "MTGCards" then Except.error "timeout"
        else Except.ok [⟨[("rule", "r1")], ⟨mkRat 9 10, none⟩⟩],
      fun _ => Except.ok "a", "gpt-4"⟩
    "q" ⟨1, 1, 1⟩ (mkRat 7 10) "t").2.1 "timeout"
    [⟨[("rule", "r1")], ⟨mkRat 9 10, none⟩⟩] [⟨[("rule", "r1")], ⟨mkRat 9 10, none⟩⟩]
    rfl rfl rfl
  exact ⟨H.1, H.2.1, H.2.2.1,
    (H.2.2.2 ⟨fun _ _ _ => Except.ok [⟨[("rule", "r1")], ⟨mkRat 9 10, none⟩⟩],
      fun _ => Except.ok "a", "gpt-4"⟩ rfl rfl).1,
    (H.2.2.2 ⟨fun _ _ _ => Except.ok [⟨[("rule", "r1")], ⟨mkRat 9 10, none⟩⟩],
      fun _ => Except.ok "a", "gpt-4"⟩ rfl rfl).2⟩

/-- C3: if the generation collaborator raises with message `e`,
`generate_answer` does not raise and returns the diagnostic string embedding
`e`, and consequently the record returned by `answer_question` has that
diagnostic string as its answer (and in particular contains it). -/
theorem claim_C3 (p : Pipeline) (question context : String) (temperature min_score : ℚ)
    (limits : Option Limits) (include_debug : Bool) (now1 now2 e : String)
    (hfail : ∀ req, p.chat req = Except.error e) :
    generate_answer p question context temperature =
      "I encountered an error while generating the answer: " ++ e ∧
    (answer_question p question limits min_score temperature include_debug now1 now2).answer =
      "I encountered an error while generating the answer: " ++ e ∧
    strContains
      (answer_question p question limits min_score temperature include_debug now1 now2).answer
      ("I encountered an error while generating the answer: " ++ e) := by
  have h1 : ∀ ctx : String, generate_answer p question ctx temperature =
      "I encountered an error while generating the answer: " ++ e := by
    intro ctx
    simp [generate_answer, hfail]
  have h2 : (answer_question p question limits min_score temperature
      include_debug now1 now2).answer =
      "I encountered an error while generating the answer: " ++ e := by
    simp only [answer_question]
    exact h1 _
  refine ⟨h1 context, h2, ?_⟩
  rw [h2]
  exact List.infix_refl _

/-- C3 witness: a generation collaborator that always raises `"quota"`. -/
theorem claim_C3_witness :
    generate_answer ⟨fun _ _ _ => Except.ok [], fun _ => Except.error "quota", "gpt-4"⟩
        "why" "ctx" (mkRat 1 10) =
      "I encountered an error while generating the answer: " ++ "quota" ∧
    (answer_question ⟨fun _ _ _ => Except.ok [], fun _ => Except.error "quota", "gpt-4"⟩
        "why" none (mkRat 7 10) (mkRat 1 10) false "t1" "t2").answer =
      "I encountered an error while generating the answer: " ++ "quota" ∧
    strContains
      (answer_question ⟨fun _ _ _ => Except.ok [], fun _ => Except.error "quota", "gpt-4"⟩
        "why" none (mkRat 7 10) (mkRat 1 10) false "t1" "t2").answer
      ("I encountered an error while generating the answer: " ++ "quota") :=
  claim_C3 _ "why" "ctx" (mkRat 1 10) (mkRat 7 10) none false "t1" "t2" "quota"
    (fun _ => rfl)

/-- C4: `batch_answer_questions` returns one record per question, in order:
the result list has the length of the question list; the i-th element is the
(successful) answer record for the i-th question, and if answering the i-th
question raises unexpectedly, the i-th element is the error record carrying
that question, an error string as the answer and the error flag set, while
every other index is untouched (the elements are computed independently). -/
theorem claim_C4 (answer_fn : String → Except String AnswerRecord)
    (questions : List String) (i : Nat) (q : String) (hq : questions[i]? = some q) :
    (batch_answer_questions answer_fn questions).length = questions.length ∧
    (∀ r, answer_fn q = Except.ok r →
      (batch_answer_questions answer_fn questions)[i]? = some r) ∧
    (∀ e, answer_fn q = Except.error e →
      (batch_answer_questions answer_fn questions)[i]? =
        some { question := q, answer := "Error processing question: " ++ e,
               timestamp := none, sources_found := none, debug := none,
               error := some true }) := by
  refine ⟨by simp [batch_answer_questions], ?_, ?_⟩
  · intro r hr
    simp only [batch_answer_questions, List.getElem?_map, hq, Option.map_some']
    rw [hr]
  · intro e he
    simp only [batch_answer_questions, List.getElem?_map, hq, Option.map_some']
    rw [he]

/-- C4 witness: a batch of three questions whose second triggers an internal
failure; the theorem applied at each index gives a three-element result whose
second element is the flagged error record and whose first and third are the
normal records. -/
theorem claim_C4_witness :
    (batch_answer_questions
        (fun q => if q = "q2" then Except.error "boom"
          else Except.ok ⟨q, "fine", some "t", some ⟨0, 0, 0⟩, none, none⟩)
        ["q1", "q2", "q3"]).length = 3 ∧
    (batch_answer_questions
        (fun q => if q = "q2" then Except.error "boom"
          else Except.ok ⟨q, "fine", some "t", some ⟨0, 0, 0⟩, none, none⟩)
        ["q1", "q2", "q3"])[0]? = some ⟨"q1", "fine", some "t", some ⟨0, 0, 0⟩, none, none⟩ ∧
    (batch_answer_questions
        (fun q => if q = "q2" then Except.error "boom"
          else Except.ok ⟨q, "fine", some "t", some ⟨0, 0, 0⟩, none, none⟩)
        ["q1", "q2", "q3"])[1]? =
      some ⟨"q2", "Error processing question: " ++ "boom", none, none, none, some true⟩ ∧
    (batch_answer_questions
        (fun q => if q = "q2" then Except.error "boom"
          else Except.ok ⟨q, "fine", some "t", some ⟨0, 0, 0⟩, none, none⟩)
        ["q1", "q2", "q3"])[2]? = some ⟨"q3", "fine", some "t", some ⟨0, 0, 0⟩, none, none⟩ :=
  ⟨(claim_C4 _ ["q1", "q2", "q3"] 0 "q1" rfl).1,
    (claim_C4 _ ["q1", "q2", "q3"] 0 "q1" rfl).2.1 _ rfl,
    (claim_C4 _ ["q1", "q2", "q3"] 1 "q2" rfl).2.2 "boom" rfl,
    (claim_C4 _ ["q1", "q2", "q3"] 2 "q3" rfl).2.1 _ rfl⟩

/-- C5 counterexample: the claim as stated — for every `SearchResults` value
with an empty collection, the header string is absent from the formatted
context — fails when the input text itself contains the header: here the
query is the string `=== OFFICIAL RULES ===`, the rules list is empty, and
the formatted context nevertheless contains that string. -/
theorem claim_C5_counterexample :
    (⟨[], [], [], ⟨"=== OFFICIAL RULES ===", "t", ⟨3, 3, 3⟩, mkRat 7 10⟩⟩ :
        SearchResults).rules = [] ∧
    strContains
      (format_context_for_llm
        ⟨[], [], [], ⟨"=== OFFICIAL RULES ===", "t", ⟨3, 3, 3⟩, mkRat 7 10⟩⟩)
      "=== OFFICIAL RULES ===" :=
  ⟨rfl, by decide⟩

/-- C5 (amended): for each collection independently, if the collection's
retained list is empty then the formatter emits no section header for it: the
header string is not among the parts joined into the formatted context (so no
empty section is rendered; the string can occur in the output only when
embedded in the input's own query, timestamp or field text). -/
theorem claim_C5_amended (sr : SearchResults) :
    (sr.rules = [] → "=== OFFICIAL RULES ===" ∉ contextParts sr) ∧
    (sr.cards = [] → "=== RELEVANT CARDS ===" ∉ contextParts sr) ∧
    (sr.rulings = [] → "=== OFFICIAL RULINGS ===" ∉ contextParts sr) := by
  refine ⟨?_, ?_, ?_⟩
  · intro hempty hmem
    rcases mem_contextParts hmem with h | h | h | h | h | h | h
    · exact absurd h.symm (append_ne_of_head_ne rfl rfl (by decide))
    · exact absurd h.symm (append_ne_of_head_ne rfl rfl (by decide))
    · exact absurd h (by decide)
    · exact h.1 hempty
    · exact absurd h.2 (by decide)
    · exact absurd h.2 (by decide)
    · exact headIsDigit_false h rfl
  · intro hempty hmem
    rcases mem_contextParts hmem with h | h | h | h | h | h | h
    · exact absurd h.symm (append_ne_of_head_ne rfl rfl (by decide))
    · exact absurd h.symm (append_ne_of_head_ne rfl rfl (by decide))
    · exact absurd h (by decide)
    · exact absurd h.2 (by decide)
    · exact h.1 hempty
    · exact absurd h.2 (by decide)
    · exact headIsDigit_false h rfl
  · intro hempty hmem
    rcases mem_contextParts hmem with h | h | h | h | h | h | h
    · exact absurd h.symm (append_ne_of_head_ne rfl rfl (by decide))
    · exact absurd h.symm (append_ne_of_head_ne rfl rfl (by decide))
    · exact absurd h (by decide)
    · exact absurd h.2 (by decide)
    · exact absurd h.2 (by decide)
    · exact h.1 hempty
    · exact headIsDigit_false h rfl

/-- C5 witness: on fully empty search results no section header part is
emitted, for all three collections. -/
theorem claim_C5_witness :
    "=== OFFICIAL RULES ===" ∉
      contextParts ⟨[], [], [], ⟨"q", "t", ⟨3, 3, 3⟩, mkRat 7 10⟩⟩ ∧
    "=== RELEVANT CARDS ===" ∉
      contextParts ⟨[], [], [], ⟨"q", "t", ⟨3, 3, 3⟩, mkRat 7 10⟩⟩ ∧
    "=== OFFICIAL RULINGS ===" ∉
      contextParts ⟨[], [], [], ⟨"q", "t", ⟨3, 3, 3⟩, mkRat 7 10⟩⟩ :=
  ⟨(claim_C5_amended _).1 rfl, (claim_C5_amended _).2.1 rfl, (claim_C5_amended _).2.2 rfl⟩

/-- C6 counterexample: the claim as stated — every listed collection-specific
field that is missing is omitted entirely, with no label or placeholder —
fails for the card and ruling `name` (a missing name renders the fallback
text `Unknown Card`) and for the ruling text (a missing `rulings` property
still renders the `Ruling:` label with empty content): here both entries are
built from an object with no properties at all. -/
theorem claim_C6_counterexample :
    cardEntry 1 ⟨[], ⟨mkRat 1 2, none⟩⟩ = "1. [Score: 0.500] Unknown Card" ∧
    strContains (cardEntry 1 ⟨[], ⟨mkRat 1 2, none⟩⟩) "Unknown Card" ∧
    rulingEntry 1 ⟨[], ⟨mkRat 1 2, none⟩⟩ = "1. [Score: 0.500] Unknown Card\n   Ruling: " ∧
    strContains (rulingEntry 1 ⟨[], ⟨mkRat 1 2, none⟩⟩) "Ruling: " :=
  ⟨by decide, by decide, by decide, by decide⟩

/-- C6 (amended): closed form of the three entry renderers, showing each
optional field independently of the others: a missing (or empty) card mana
cost, type, power/toughness pair (rendered only when both are present) or
text contributes the empty string — no label or placeholder — and likewise a
missing ruling date or source; this holds for every combination of present
and missing fields.  A missing card or ruling name is not omitted but
rendered with the fallback `Unknown Card`; a missing ruling text still
renders the `Ruling:` label with empty content; a missing rule text renders
as empty after the score. -/
theorem claim_C6_amended (i : Nat) (obj : WObject) :
    cardEntry i obj =
      natRepr i ++ ". [Score: " ++ fmtScore obj.metadata.score ++ "] " ++
        (obj.properties.lookup "name").getD "Unknown Card" ++
        (if (obj.properties.lookup "manacost").getD "" ≠ "" then
          " " ++ (obj.properties.lookup "manacost").getD "" else "") ++
        (if (obj.properties.lookup "type").getD "" ≠ "" then
          " - " ++ (obj.properties.lookup "type").getD "" else "") ++
        (if (obj.properties.lookup "power").getD "" ≠ "" ∧
            (obj.properties.lookup "toughness").getD "" ≠ "" then
          " (" ++ (obj.properties.lookup "power").getD "" ++ "/" ++
            (obj.properties.lookup "toughness").getD "" ++ ")" else "") ++
        (if (obj.properties.lookup "text").getD "" ≠ "" then
          "\n   Text: " ++ (obj.properties.lookup "text").getD "" else "") ∧
    rulingEntry i obj =
      natRepr i ++ ". [Score: " ++ fmtScore obj.metadata.score ++ "] " ++
        (obj.properties.lookup "name").getD "Unknown Card" ++
        (if (obj.properties.lookup "ruling_date").getD "" ≠ "" then
          " (" ++ (obj.properties.lookup "ruling_date").getD "" ++ ")" else "") ++
        (if (obj.properties.lookup "source").getD "" ≠ "" then
          " - Source: " ++ (obj.properties.lookup "source").getD "" else "") ++
        "\n   Ruling: " ++ (obj.properties.lookup "rulings").getD "" ∧
    ruleEntry i obj =
      natRepr i ++ ". [Score: " ++ fmtScore obj.metadata.score ++ "] " ++
        (obj.properties.lookup "rule").getD "" := by
  refine ⟨?_, ?_, rfl⟩
  · simp only [cardEntry]
    split_ifs <;>
      · apply String.ext
        simp [String.data_append]
  · simp only [rulingEntry]
    split_ifs <;>
      · apply String.ext
        simp [String.data_append]

/-- C7: context formatting is deterministic and idempotent across runs.  The
source function only reads its input (no assignment mutates `search_results`
or pipeline attributes), which is what its embedding as a pure function of
the `SearchResults` value records; hence two runs on the same input yield
character-for-character identical text. -/
theorem claim_C7 (sr1 sr2 : SearchResults) (h : sr1 = sr2) :
    (format_context_for_llm sr1).data = (format_context_for_llm sr2).data := by
  rw [h]

/-- C7 witness. -/
theorem claim_C7_witness :
    (format_context_for_llm
      ⟨[⟨[("rule", "r1")], ⟨mkRat 9 10, none⟩⟩], [], [],
        ⟨"q", "t", ⟨3, 3, 3⟩, mkRat 7 10⟩⟩).data =
    (format_context_for_llm
      ⟨[⟨[("rule", "r1")], ⟨mkRat 9 10, none⟩⟩], [], [],
        ⟨"q", "t", ⟨3, 3, 3⟩, mkRat 7 10⟩⟩).data :=
  claim_C7 _ _ rfl

/-- An entry line of the formatted context for 1-based index `idx` and score
`sc`: the line starts with the index in decimal, then `. [Score: `, the score
to three decimals, `] `, and the collection-specific rest. -/
def entryShape (idx : Nat) (sc : ℚ) (s : String) : Prop :=
  ∃ rest, s.data = (natRepr idx ++ ". [Score: " ++ fmtScore sc ++ "] ").data ++ rest

lemma entryShape_append {idx : Nat} {sc : ℚ} {s : String} (t : String)
    (h : entryShape idx sc s) : entryShape idx sc (s ++ t) := by
  obtain ⟨rest, hr⟩ := h
  exact ⟨rest ++ t.data, by rw [String.data_append, hr, List.append_assoc]⟩

lemma entryShape_ruleEntry (i : Nat) (obj : WObject) :
    entryShape i obj.metadata.score (ruleEntry i obj) :=
  ⟨((obj.properties.lookup "rule").getD "").data, String.data_append _ _⟩

lemma entryShape_base (idx : Nat) (sc : ℚ) (t : String) :
    entryShape idx sc (natRepr idx ++ ". [Score: " ++ fmtScore sc ++ "] " ++ t) :=
  ⟨t.data, String.data_append _ t⟩

lemma entryShape_ite {idx : Nat} {sc : ℚ} (c : Prop) [Decidable c] {X Y : String}
    (hX : entryShape idx sc X) (hY : entryShape idx sc Y) :
    entryShape idx sc (if c then X else Y) := by
  split
  · exact hX
  · exact hY

lemma entryShape_cardEntry (i : Nat) (obj : WObject) :
    entryShape i obj.metadata.score (cardEntry i obj) := by
  simp only [cardEntry]
  repeat first
    | exact entryShape_base i obj.metadata.score _
    | apply entryShape_ite
    | apply entryShape_append

lemma entryShape_rulingEntry (i : Nat) (obj : WObject) :
    entryShape i obj.metadata.score (rulingEntry i obj) := by
  simp only [rulingEntry]
  repeat first
    | exact entryShape_base i obj.metadata.score _
    | apply entryShape_ite
    | apply entryShape_append

/-- C8: for every `SearchResults` value with at least one non-empty
collection, the formatted context is the newline join of: the metadata header
(query then timestamp) first, then one section per non-empty collection in
the fixed order `OFFICIAL RULES`, `RELEVANT CARDS`, `OFFICIAL RULINGS`; each
section lists one entry per retained result, in the retained order, the j-th
entry carrying the 1-based index `j + 1` and its result's score; and the
score is always formatted with exactly three (decimal-digit) places after the
decimal point. -/
theorem claim_C8 (sr : SearchResults)
    (h : sr.rules ≠ [] ∨ sr.cards ≠ [] ∨ sr.rulings ≠ []) :
    ∃ rs cs gs : List String,
      format_context_for_llm sr = String.intercalate "\n" (contextParts sr) ∧
      contextParts sr =
        ["SEARCH QUERY: " ++ sr.search_metadata.query,
          "SEARCH TIMESTAMP: " ++ sr.search_metadata.timestamp, ""]
         ++ (if sr.rules.isEmpty then [] else "=== OFFICIAL RULES ===" :: (rs ++ [""]))
         ++ (if sr.cards.isEmpty then [] else "=== RELEVANT CARDS ===" :: (cs ++ [""]))
         ++ (if sr.rulings.isEmpty then [] else "=== OFFICIAL RULINGS ===" :: (gs ++ [""])) ∧
      rs.length = sr.rules.length ∧
      cs.length = sr.cards.length ∧
      gs.length = sr.rulings.length ∧
      (∀ j o, sr.rules[j]? = some o →
        ∃ s, rs[j]? = some s ∧ entryShape (j + 1) o.metadata.score s) ∧
      (∀ j o, sr.cards[j]? = some o →
        ∃ s, cs[j]? = some s ∧ entryShape (j + 1) o.metadata.score s) ∧
      (∀ j o, sr.rulings[j]? = some o →
        ∃ s, gs[j]? = some s ∧ entryShape (j + 1) o.metadata.score s) ∧
      (∀ sc : ℚ, ∃ a b : String, fmtScore sc = a ++ "." ++ b ∧ b.data.length = 3 ∧
        ∀ c ∈ b.data, c.isDigit = true) := by
  refine ⟨(sr.rules.enumFrom 1).map (fun p => ruleEntry p.1 p.2),
    (sr.cards.enumFrom 1).map (fun p => cardEntry p.1 p.2),
    (sr.rulings.enumFrom 1).map (fun p => rulingEntry p.1 p.2),
    ?_, ?_, ?_, ?_, ?_, ?_, ?_, ?_, ?_⟩
  · rfl
  · rfl
  · simp
  · simp
  · simp
  · intro j o hj
    refine ⟨ruleEntry (j + 1) o, ?_, entryShape_ruleEntry _ _⟩
    simp [List.getElem?_map, List.getElem?_enumFrom, hj, Nat.add_comm]
  · intro j o hj
    refine ⟨cardEntry (j + 1) o, ?_, entryShape_cardEntry _ _⟩
    simp [List.getElem?_map, List.getElem?_enumFrom, hj, Nat.add_comm]
  · intro j o hj
    refine ⟨rulingEntry (j + 1) o, ?_, entryShape_rulingEntry _ _⟩
    simp [List.getElem?_map, List.getElem?_enumFrom, hj, Nat.add_comm]
  · intro sc
    refine ⟨(if scoreMillis sc < 0 then "-" else "") ++
        natRepr ((scoreMillis sc).natAbs / 1000),
      pad3 ((scoreMillis sc).natAbs % 1000), rfl,
      pad3_data_len (Nat.mod_lt _ (by omega)), fun c hc => pad3_digits c hc⟩

/-- C8 witness input: one retained rule, one retained card, empty rulings. -/
def c8Input : SearchResults :=
  ⟨[⟨[("rule", "r1")], ⟨mkRat 9 10, none⟩⟩],
    [⟨[("name", "Shock")], ⟨mkRat 3 4, none⟩⟩], [],
    ⟨"q", "t", ⟨3, 3, 1⟩, mkRat 7 10⟩⟩

/-- C8 witness. -/
theorem claim_C8_witness :
    ∃ rs cs gs : List String,
      format_context_for_llm c8Input = String.intercalate "\n" (contextParts c8Input) ∧
      contextParts c8Input =
        ["SEARCH QUERY: " ++ c8Input.search_metadata.query,
          "SEARCH TIMESTAMP: " ++ c8Input.search_metadata.timestamp, ""]
         ++ (if c8Input.rules.isEmpty then [] else "=== OFFICIAL RULES ===" :: (rs ++ [""]))
         ++ (if c8Input.cards.isEmpty then [] else "=== RELEVANT CARDS ===" :: (cs ++ [""]))
         ++ (if c8Input.rulings.isEmpty then []
             else "=== OFFICIAL RULINGS ===" :: (gs ++ [""])) ∧
      rs.length = c8Input.rules.length ∧
      cs.length = c8Input.cards.length ∧
      gs.length = c8Input.rulings.length ∧
      (∀ j o, c8Input.rules[j]? = some o →
        ∃ s, rs[j]? = some s ∧ entryShape (j + 1) o.metadata.score s) ∧
      (∀ j o, c8Input.cards[j]? = some o →
        ∃ s, cs[j]? = some s ∧ entryShape (j + 1) o.metadata.score s) ∧
      (∀ j o, c8Input.rulings[j]? = some o →
        ∃ s, gs[j]? = some s ∧ entryShape (j + 1) o.metadata.score s) ∧
      (∀ sc : ℚ, ∃ a b : String, fmtScore sc = a ++ "." ++ b ∧ b.data.length = 3 ∧
        ∀ c ∈ b.data, c.isDigit = true) :=
  claim_C8 c8Input (Or.inl (by simp [c8Input]))

/-- C9: with the optional parameters omitted, the pipeline uses the defaults
of the source signatures: `search_all_collections` with `limits=None` behaves
exactly as with the explicit limits `{rules: 3, cards: 3, rulings: 3}` and
records them (together with the default threshold `0.7`) in the search
metadata; `generate_answer` submits with the default temperature `0.1` and
the fixed maximum output length `max_tokens = 1000`, and its result depends
on the generation collaborator only through the submitted request. -/
theorem claim_C9 :
    (∀ p q now, search_all_collections p q none default_min_score now =
      search_all_collections p q (some default_limits) (mkRat 7 10) now) ∧
    (∀ p q now,
      (search_all_collections p q none default_min_score now).search_metadata.limits =
        ⟨3, 3, 3⟩) ∧
    (∀ p q now,
      (search_all_collections p q none default_min_score now).search_metadata.min_score =
        mkRat 7 10) ∧
    default_min_score = mkRat 7 10 ∧
    default_temperature = mkRat 1 10 ∧
    (∀ model question context,
      (chat_request model question context default_temperature).temperature = mkRat 1 10 ∧
      (chat_request model question context default_temperature).max_tokens = 1000) ∧
    (∀ p1 p2 question context, p1.model = p2.model →
      p1.chat (chat_request p1.model question context (mkRat 1 10)) =
        p2.chat (chat_request p2.model question context (mkRat 1 10)) →
      generate_answer p1 question context default_temperature =
        generate_answer p2 question context default_temperature) := by
  refine ⟨fun p q now => rfl, fun p q now => rfl, fun p q now => rfl, rfl, rfl,
    fun model question context => ⟨rfl, rfl⟩, ?_⟩
  intro p1 p2 question context hm hchat
  rw [hm] at hchat
  simp only [generate_answer, show default_temperature = mkRat 1 10 from rfl, hm]
  rw [hchat]

/-- C9 witness. -/
theorem claim_C9_witness :
    generate_answer ⟨fun _ _ _ => Except.ok [], fun _ => Except.ok "a", "gpt-4"⟩
        "q" "ctx" default_temperature =
      generate_answer ⟨fun _ _ _ => Except.ok [], fun _ => Except.ok "a", "gpt-4"⟩
        "q" "ctx" default_temperature :=
  claim_C9.2.2.2.2.2.2 _ _ "q" "ctx" rfl rfl

/-- C10: the cards schema stores the mana cost under the key `manaCost`
(`mtg_weaviate.py:55-81`, collection `MTGCards3`) while the formatter looks it
up under the all-lowercase key `manacost` (`rag_retrieval.py:169`); for a
result whose properties carry `manaCost` but not `manacost`, the lowercase
lookup misses, and the rendered card line is identical to the line for the
same properties without any mana cost — no mana cost is rendered. -/
theorem claim_C10 (i : Nat) (md : WMetadata) (props : List (String × String)) (v : String)
    (hmiss : props.lookup "manacost" = none) :
    List.lookup "manacost" (("manaCost", v) :: props) = none ∧
    cardEntry i ⟨("manaCost", v) :: props, md⟩ = cardEntry i ⟨props, md⟩ := by
  constructor
  · simp [List.lookup, hmiss]
  · simp [cardEntry, List.lookup]

/-- C10 witness: a card stored with the schema spelling `manaCost` renders
without its mana cost. -/
theorem claim_C10_witness :
    List.lookup "manacost" (("manaCost", "3R") :: [("name", "Bolt")]) = none ∧
    cardEntry 1 ⟨("manaCost", "3R") :: [("name", "Bolt")], ⟨mkRat 9 10, none⟩⟩ =
      cardEntry 1 ⟨[("name", "Bolt")], ⟨mkRat 9 10, none⟩⟩ :=
  claim_C10 1 ⟨mkRat 9 10, none⟩ [("name", "Bolt")] "3R" rfl

end MTGRAG
